import Mathlib

/-!
# Shallow embedding of the Person/Mistakes FastAPI service

Embeds `src/main.py`, `src/models/mistake.py` and `src/models/person.py` of the
Simple-Microservice repository.

Modelling conventions:
* `UUID` values are modelled as `Nat` (only identity/equality of ids matters to
  the handlers).
* `datetime` instants are modelled as `Nat` ticks; a handler that calls
  `datetime.utcnow()` receives the current instant as an explicit `now`
  parameter.  `update_mistake` and `update_person` take no such parameter,
  because the corresponding handlers never read the clock.
* The in-memory dicts `mistakes` and `persons` (main.py lines 21-22) are
  association lists with Python-dict semantics: assignment to an existing key
  replaces in place, assignment to a fresh key appends, `del` removes the key.
* `HTTPException` and pydantic `ValidationError` are modelled by the `ApiError`
  error type of an `Except` result; a handler that raises leaves the store
  untouched (no updated store is produced on the error path).
* pydantic's `exclude_unset` partial updates are modelled with `Option` fields
  on the update payloads: `some v` is a field the caller supplied, `none` a
  field the caller omitted.  (Explicitly supplying JSON `null` is not
  distinguished from omission; no claim exercises that corner.)
-/

namespace SimpleMicroservice

/-- UUIDs, by identity only. -/
abbrev UUIDT := Nat

/-- `datetime` instants, as abstract ticks. -/
abbrev Timestamp := Nat

/-! ## Python-dict semantics over association lists (main.py lines 21-22) -/

/-- `d[k]` / `k in d` lookup: first binding of the key. -/
def dictLookup {α : Type} (s : List (UUIDT × α)) (k : UUIDT) : Option α :=
  match s with
  | [] => none
  | (k2, v) :: rest => if k2 = k then some v else dictLookup rest k

/-- `k in d`. -/
def dictContains {α : Type} (s : List (UUIDT × α)) (k : UUIDT) : Bool :=
  (dictLookup s k).isSome

/-- `d[k] = v`: replace in place when the key is present, append otherwise. -/
def dictInsert {α : Type} (s : List (UUIDT × α)) (k : UUIDT) (v : α) :
    List (UUIDT × α) :=
  if dictContains s k then
    s.map (fun kv => if kv.1 = k then (k, v) else kv)
  else
    s ++ [(k, v)]

/-- `del d[k]`. -/
def dictErase {α : Type} (s : List (UUIDT × α)) (k : UUIDT) :
    List (UUIDT × α) :=
  s.filter (fun kv => kv.1 ≠ k)

/-- `list(d.values())`. -/
def dictValues {α : Type} (s : List (UUIDT × α)) : List α :=
  s.map (fun kv => kv.2)

/-! ## Error model: `HTTPException` and pydantic `ValidationError` -/

/-- An error surfaced by a handler: either an `HTTPException(status_code,
detail)` or a pydantic `ValidationError` raised while re-validating a model. -/
inductive ApiError where
  | http (status_code : Nat) (detail : String)
  | validation (detail : String)
deriving DecidableEq, Repr

/-! ## models/mistake.py -/

/-- `MistakeBase` (mistake.py lines 9-59): id plus six required text fields.
`MistakeCreate` adds no fields, so it is the same shape. -/
structure MistakeBase where
  id : UUIDT
  subject : String
  key_concept : String
  prompt : String
  correct_answer : String
  wrong_answer : String
  reflection : String
deriving DecidableEq, Repr

/-- `MistakeCreate` (mistake.py lines 61-77): identical field set to
`MistakeBase`. -/
abbrev MistakeCreate := MistakeBase

/-- `MistakeUpdate` (mistake.py lines 79-104): all six text fields optional,
no `id` field. `some v` models a field the caller set. -/
structure MistakeUpdate where
  subject : Option String := none
  key_concept : Option String := none
  prompt : Option String := none
  correct_answer : Option String := none
  wrong_answer : Option String := none
  reflection : Option String := none
deriving DecidableEq, Repr

/-- `MistakeRead` (mistake.py lines 123-133): the base fields plus the two
server-assigned timestamps. -/
structure MistakeRead extends MistakeBase where
  created_at : Timestamp
  updated_at : Timestamp
deriving DecidableEq, Repr

/-- The `mistakes` dict (main.py line 22). -/
abbrev MistakeStore := List (UUIDT × MistakeRead)

/-! ## Mistake endpoints (main.py lines 53-106) -/

/-- `create_mistake` (main.py lines 53-58).  `MistakeRead(**mistake.model_dump())`
fills `created_at` and `updated_at` from their `datetime.utcnow` default
factories, modelled as the single instant `now` at which the handler runs.
Returns (new store, HTTP status 201, body) on success. -/
def create_mistake (store : MistakeStore) (mistake : MistakeCreate)
    (now : Timestamp) : Except ApiError (MistakeStore × Nat × MistakeRead) :=
  if dictContains store mistake.id then
    .error (.http 400 "Mistake with this ID already exists")
  else
    let r : MistakeRead :=
      { toMistakeBase := mistake, created_at := now, updated_at := now }
    .ok (dictInsert store mistake.id r, 201, r)

/-- The six optional query parameters of `list_mistakes`
(main.py lines 61-67). -/
structure MistakeFilters where
  subject : Option String := none
  key_concept : Option String := none
  prompt : Option String := none
  correct_answer : Option String := none
  wrong_answer : Option String := none
  reflection : Option String := none
deriving DecidableEq, Repr

/-- One `if q is not None: results = [a for a in results if field(a) == q]`
block of the list handlers. -/
def applyFilter {α : Type} (results : List α) (q : Option String)
    (field : α → String) : List α :=
  match q with
  | none => results
  | some v => results.filter (fun a => field a == v)

/-- `list_mistakes` (main.py lines 60-84): start from `list(mistakes.values())`
and narrow by each supplied filter in turn. -/
def list_mistakes (store : MistakeStore) (f : MistakeFilters) :
    List MistakeRead :=
  let results := dictValues store
  let results := applyFilter results f.subject (fun a => a.subject)
  let results := applyFilter results f.key_concept (fun a => a.key_concept)
  let results := applyFilter results f.prompt (fun a => a.prompt)
  let results := applyFilter results f.correct_answer (fun a => a.correct_answer)
  let results := applyFilter results f.wrong_answer (fun a => a.wrong_answer)
  let results := applyFilter results f.reflection (fun a => a.reflection)
  results

/-- `get_mistakes` (main.py lines 86-90). -/
def get_mistakes (store : MistakeStore) (mistakes_id : UUIDT) :
    Except ApiError MistakeRead :=
  match dictLookup store mistakes_id with
  | none => .error (.http 404 "Mistake not found")
  | some r => .ok r

/-- `stored.update(update.model_dump(exclude_unset=True))` followed by
`MistakeRead(**stored)` (main.py lines 96-98): a supplied field overwrites the
stored one; `id`, `created_at` and `updated_at` come from the stored dump and
are passed to `MistakeRead` explicitly, so no default factory runs. -/
def applyMistakeUpdate (stored : MistakeRead) (update : MistakeUpdate) :
    MistakeRead :=
  { stored with
    subject := update.subject.getD stored.subject
    key_concept := update.key_concept.getD stored.key_concept
    prompt := update.prompt.getD stored.prompt
    correct_answer := update.correct_answer.getD stored.correct_answer
    wrong_answer := update.wrong_answer.getD stored.wrong_answer
    reflection := update.reflection.getD stored.reflection }

/-- `update_mistake` (main.py lines 92-99).  Note the handler never reads the
clock, hence no `now` parameter. -/
def update_mistake (store : MistakeStore) (mistakes_id : UUIDT)
    (update : MistakeUpdate) : Except ApiError (MistakeStore × MistakeRead) :=
  match dictLookup store mistakes_id with
  | none => .error (.http 404 "Mistake not found")
  | some stored =>
      let updated := applyMistakeUpdate stored update
      .ok (dictInsert store mistakes_id updated, updated)

/-- `delete_mistake` (main.py lines 101-106). -/
def delete_mistake (store : MistakeStore) (mistakes_id : UUIDT) :
    Except ApiError MistakeStore :=
  if dictContains store mistakes_id then
    .ok (dictErase store mistakes_id)
  else
    .error (.http 404 "Mistake not found")

/-! ## models/person.py -/

/-- `GradeLevel` (person.py line 11): the fixed `Literal` value set. -/
def gradeLevels : List String :=
  ["K-5", "6-8", "9-12", "Undergrad", "Graduate", "Adult", "Other"]

/-- pydantic validation of an `Optional[GradeLevel]` value: absent is fine,
a present value must be one of the literals. -/
def validGradeLevel : Option String → Bool
  | none => true
  | some s => gradeLevels.contains s

/-- `PersonBase` (person.py lines 13-81).  `grade_level` is kept as
`Option String`; the `Literal` constraint is enforced by the validating
constructors below, mirroring where pydantic validates.  The embedded
collection field is named `mistake`, exactly as in person.py line 40 —
not `mistakes`. -/
structure PersonBase where
  first_name : String
  last_name : String
  email : String
  birth_date : Option String := none
  grade_level : Option String := none
  mistake : List MistakeBase := []
deriving DecidableEq, Repr

/-- `PersonCreate` (person.py lines 83-108) adds no fields to `PersonBase`;
this is the payload after pydantic has validated it (see
`parsePersonCreate`). -/
abbrev PersonCreate := PersonBase

/-- A raw Person-create request body before pydantic validation: `none` models
an omitted optional field (person.py gives `birth_date`, `grade_level` default
`None` and `mistake` default `list`). -/
structure PersonPayloadRaw where
  first_name : String
  last_name : String
  email : String
  birth_date : Option String := none
  grade_level : Option String := none
  mistake : Option (List MistakeBase) := none
deriving DecidableEq, Repr

/-- pydantic parsing of a `PersonCreate` body: `grade_level`, when present,
must be one of the `GradeLevel` literals (person.py line 34), and an omitted
`mistake` field defaults to the empty list (person.py line 41,
`default_factory=list`).  `PersonCreate` has no `id` field, so a
caller-supplied identifier is dropped by parsing. -/
def parsePersonCreate (raw : PersonPayloadRaw) : Except ApiError PersonCreate :=
  if validGradeLevel raw.grade_level then
    .ok { first_name := raw.first_name
          last_name := raw.last_name
          email := raw.email
          birth_date := raw.birth_date
          grade_level := raw.grade_level
          mistake := raw.mistake.getD [] }
  else
    .error (.validation "grade_level must be one of the GradeLevel literals")

/-- `PersonUpdate` (person.py lines 110-134): every field optional; note
`grade_level : Optional[str]` (person.py line 116) accepts any string at the
payload level — the `Literal` set is only re-checked when the merged record is
re-validated as a `PersonRead`. -/
structure PersonUpdate where
  first_name : Option String := none
  last_name : Option String := none
  email : Option String := none
  birth_date : Option String := none
  grade_level : Option String := none
  mistake : Option (List MistakeBase) := none
deriving DecidableEq, Repr

/-- `PersonRead` (person.py lines 136-152): base fields plus server-generated
`id` and the two timestamps. -/
structure PersonRead extends PersonBase where
  id : UUIDT
  created_at : Timestamp
  updated_at : Timestamp
deriving DecidableEq, Repr

/-- `PersonRead(**stored)` re-validation: pydantic re-checks the field
constraints of `PersonBase`, in particular that `grade_level` is one of the
`GradeLevel` literals; a violation raises `ValidationError`. -/
def mkPersonRead (p : PersonRead) : Except ApiError PersonRead :=
  if validGradeLevel p.grade_level then
    .ok p
  else
    .error (.validation "grade_level must be one of the GradeLevel literals")

/-- The `persons` dict (main.py line 21). -/
abbrev PersonStore := List (UUIDT × PersonRead)

/-! ## Person endpoints (main.py lines 110-165) -/

/-- `create_person` (main.py lines 110-115): `PersonRead(**person.model_dump())`
draws `id` from its `uuid4` default factory (the fresh `freshId`) and both
timestamps from their `utcnow` default factories (`now`); the record is then
stored at that generated id unconditionally — there is no duplicate check, so
an existing binding at `freshId` is overwritten and no error path exists.
(`PersonRead` re-validation trivially succeeds here because `person` already
passed `PersonCreate` validation.)  Returns (new store, HTTP status 201,
body). -/
def create_person (store : PersonStore) (person : PersonCreate)
    (freshId : UUIDT) (now : Timestamp) : PersonStore × Nat × PersonRead :=
  let person_read : PersonRead :=
    { toPersonBase := person, id := freshId, created_at := now,
      updated_at := now }
  (dictInsert store freshId person_read, 201, person_read)

/-- The six optional query parameters of `list_persons`
(main.py lines 119-126). -/
structure PersonFilters where
  first_name : Option String := none
  last_name : Option String := none
  email : Option String := none
  birth_date : Option String := none
  grade_level : Option String := none
  subject : Option String := none
deriving DecidableEq, Repr

/-- Python `str(p.birth_date)` for an `Optional[date]`: `str(None)` is the
string `"None"`. -/
def birthDateStr : Option String → String
  | none => "None"
  | some d => d

/-- The nested-mistake filtering blocks of `list_persons` (main.py lines
139-142): `[p for p in results if any(... for mistake in p.mistakes)]`.  The
handler reads attribute `mistakes`, but the model's field is `mistake`
(person.py line 40), so evaluating the comprehension body raises
`AttributeError` (surfaced as HTTP 500) on the first candidate person; over an
empty candidate list the comprehension yields `[]` without ever evaluating its
body.  (Even with the field name fixed, the embedded `MistakeBase` entries
have no `grade_level` attribute, so the `grade_level` branch would still
raise.) -/
def filterByEmbedded (results : List PersonRead) :
    Except ApiError (List PersonRead) :=
  match results with
  | [] => .ok []
  | _ :: _ =>
      .error (.http 500 "AttributeError: PersonRead object has no attribute mistakes")

/-- `list_persons` (main.py lines 118-143): the four scalar filters narrow the
candidate list, then the two nested-mistake filters run (and crash on any
non-empty candidate list, see `filterByEmbedded`). -/
def list_persons (store : PersonStore) (f : PersonFilters) :
    Except ApiError (List PersonRead) :=
  let results := dictValues store
  let results := applyFilter results f.first_name (fun p => p.first_name)
  let results := applyFilter results f.last_name (fun p => p.last_name)
  let results := applyFilter results f.email (fun p => p.email)
  let results := applyFilter results f.birth_date (fun p => birthDateStr p.birth_date)
  match f.grade_level with
  | none =>
      match f.subject with
      | none => .ok results
      | some _ => filterByEmbedded results
  | some _ =>
      match filterByEmbedded results with
      | .error e => .error e
      | .ok results2 =>
          match f.subject with
          | none => .ok results2
          | some _ => filterByEmbedded results2

/-- `get_person` (main.py lines 145-149). -/
def get_person (store : PersonStore) (person_id : UUIDT) :
    Except ApiError PersonRead :=
  match dictLookup store person_id with
  | none => .error (.http 404 "Person not found")
  | some r => .ok r

/-- `stored.update(update.model_dump(exclude_unset=True))` (main.py line 156):
each supplied field overwrites the stored one; `id`, `created_at`,
`updated_at` come from the stored dump unchanged. -/
def applyPersonUpdate (stored : PersonRead) (update : PersonUpdate) :
    PersonRead :=
  { stored with
    first_name := update.first_name.getD stored.first_name
    last_name := update.last_name.getD stored.last_name
    email := update.email.getD stored.email
    birth_date := match update.birth_date with
      | some b => some b
      | none => stored.birth_date
    grade_level := match update.grade_level with
      | some g => some g
      | none => stored.grade_level
    mistake := (update.mistake).getD stored.mistake }

/-- `update_person` (main.py lines 151-158): merge, then re-validate via
`PersonRead(**stored)`; a `ValidationError` there propagates and the store is
left untouched. -/
def update_person (store : PersonStore) (person_id : UUIDT)
    (update : PersonUpdate) : Except ApiError (PersonStore × PersonRead) :=
  match dictLookup store person_id with
  | none => .error (.http 404 "Person not found")
  | some stored =>
      match mkPersonRead (applyPersonUpdate stored update) with
      | .error e => .error e
      | .ok pr => .ok (dictInsert store person_id pr, pr)

/-- `delete_person` (main.py lines 160-165). -/
def delete_person (store : PersonStore) (person_id : UUIDT) :
    Except ApiError PersonStore :=
  if dictContains store person_id then
    .ok (dictErase store person_id)
  else
    .error (.http 404 "Person not found")

/-! ## models/health.py and the health endpoints (main.py lines 31-51) -/

/-- The `Health` response model (referenced from main.py line 16; the module
`models/health.py` itself only declares these six response fields, which
`make_health` fills). -/
structure Health where
  status : Nat
  status_message : String
  timestamp : String
  ip_address : String
  echo : Option String
  path_echo : Option String
deriving DecidableEq, Repr

/-- `make_health` (main.py lines 31-39): `datetime.utcnow().isoformat()` is the
abstract ISO-8601 rendering `nowIso` of the current instant, and
`socket.gethostbyname(socket.gethostname())` the resolved address `ip` (its
failure would abort before the record is built; the constructor itself has no
failure path). -/
def make_health (nowIso : String) (ip : String) (echo : Option String)
    (path_echo : Option String := none) : Health :=
  { status := 200
    status_message := "OK"
    timestamp := nowIso ++ "Z"
    ip_address := ip
    echo := echo
    path_echo := path_echo }

/-! ## Dictionary lemmas -/

theorem dictLookup_append_single {α : Type} (s : List (UUIDT × α)) (k : UUIDT)
    (v : α) (h : dictLookup s k = none) :
    dictLookup (s ++ [(k, v)]) k = some v := by
  induction s with
  | nil => simp [dictLookup]
  | cons kv rest ih =>
      obtain ⟨k2, w⟩ := kv
      by_cases hk : k2 = k
      · simp [dictLookup, hk] at h
      · simp only [dictLookup, hk, if_false, List.cons_append, if_neg] at h ⊢
        exact ih h

theorem dictLookup_mapReplace {α : Type} (s : List (UUIDT × α)) (k : UUIDT)
    (v : α) (h : dictContains s k = true) :
    dictLookup (s.map (fun kv => if kv.1 = k then (k, v) else kv)) k = some v := by
  induction s with
  | nil => simp [dictContains, dictLookup] at h
  | cons kv rest ih =>
      obtain ⟨k2, w⟩ := kv
      by_cases hk : k2 = k
      · subst hk
        have hf : (if ((k2, w) : UUIDT × α).1 = k2 then (k2, v) else (k2, w))
            = (k2, v) := if_pos rfl
        rw [List.map_cons, hf]
        simp [dictLookup]
      · have hrest : dictContains rest k = true := by
          simpa [dictContains, dictLookup, hk] using h
        have hf : (if ((k2, w) : UUIDT × α).1 = k then (k, v) else (k2, w))
            = (k2, w) := if_neg hk
        rw [List.map_cons, hf]
        simp only [dictLookup, hk, if_false]
        exact ih hrest

theorem dictLookup_dictInsert_self {α : Type} (s : List (UUIDT × α))
    (k : UUIDT) (v : α) : dictLookup (dictInsert s k v) k = some v := by
  unfold dictInsert
  by_cases h : dictContains s k = true
  · simp only [h, if_true]
    exact dictLookup_mapReplace s k v h
  · have hn : dictLookup s k = none := by
      cases hl : dictLookup s k with
      | none => rfl
      | some w => exact absurd (by simp [dictContains, hl]) h
    simp only [h, if_false]
    exact dictLookup_append_single s k v hn

theorem dictLookup_dictErase_self {α : Type} (s : List (UUIDT × α))
    (k : UUIDT) : dictLookup (dictErase s k) k = none := by
  induction s with
  | nil => rfl
  | cons kv rest ih =>
      obtain ⟨k2, w⟩ := kv
      by_cases hk : k2 = k
      · simpa [dictErase, hk] using ih
      · simpa [dictErase, dictLookup, hk] using ih

theorem mem_dictInsert {α : Type} {s : List (UUIDT × α)} {k : UUIDT} {v : α}
    {kv : UUIDT × α} (h : kv ∈ dictInsert s k v) : kv ∈ s ∨ kv = (k, v) := by
  unfold dictInsert at h
  by_cases hc : dictContains s k = true
  · simp only [hc, if_true] at h
    obtain ⟨y, hy, heq⟩ := List.mem_map.mp h
    by_cases hyk : y.1 = k
    · right
      rw [if_pos hyk] at heq
      exact heq.symm
    · left
      rw [if_neg hyk] at heq
      exact heq ▸ hy
  · rw [if_neg hc] at h
    rcases List.mem_append.mp h with h1 | h1
    · exact Or.inl h1
    · exact Or.inr (List.mem_singleton.mp h1)

/-! ## Sample records used in concrete evaluations -/

def sampleBase : MistakeBase :=
  { id := 1, subject := "math", key_concept := "algebra", prompt := "q1",
    correct_answer := "A", wrong_answer := "B", reflection := "misread" }

def sampleRec : MistakeRead :=
  { toMistakeBase := sampleBase, created_at := 50, updated_at := 100 }

def sampleMStore : MistakeStore := [(1, sampleRec)]

/-! ## Claims about the Mistake store -/

/-- C1: the claim says `update(id, {subject: "X"})` changes `subject` and
refreshes `updated_at` to the current time, leaving the other fields alone.
The code keeps the frame (only `subject` changes, `id` and `created_at`
untouched) but `update_mistake` never reads the clock: `updated_at` is copied
from the stored dump (main.py lines 96-98), so it stays at its old value 100
instead of being refreshed.  This theorem evaluates the handler at the failing
input. -/
theorem c1_update_mistake_keeps_updated_at :
    update_mistake sampleMStore 1 { subject := some "X" } =
      .ok ([(1, { sampleRec with subject := "X" })],
           { sampleRec with subject := "X" }) ∧
    ({ sampleRec with subject := "X" } : MistakeRead).updated_at = 100 ∧
    ({ sampleRec with subject := "X" } : MistakeRead).created_at = 50 ∧
    ({ sampleRec with subject := "X" } : MistakeRead).id = 1 :=
  ⟨rfl, rfl, rfl, rfl⟩

/-- C3: creating a Mistake whose id is already bound fails with the
`Conflict`-style `HTTPException(400)` and, since the handler raises before any
assignment, no updated store is produced — the mapping is unchanged. -/
theorem c3_create_mistake_conflict (store : MistakeStore) (m : MistakeCreate)
    (now : Timestamp) (h : dictContains store m.id = true) :
    create_mistake store m now =
      .error (.http 400 "Mistake with this ID already exists") := by
  simp [create_mistake, h]

theorem c3_create_mistake_conflict_witness :
    dictContains sampleMStore sampleBase.id = true ∧
    create_mistake sampleMStore sampleBase 7 =
      .error (.http 400 "Mistake with this ID already exists") :=
  ⟨rfl, c3_create_mistake_conflict sampleMStore sampleBase 7 rfl⟩

/-- C4: creating a Mistake with a fresh id succeeds with status 201, stamps
both timestamps to the current instant (so `created_at = updated_at`), stores
the record at the payload's id, and returns the stored record. -/
theorem c4_create_mistake_fresh (store : MistakeStore) (m : MistakeCreate)
    (now : Timestamp) (h : dictContains store m.id = false) :
    ∃ s2 r, create_mistake store m now = .ok (s2, 201, r) ∧
      r.created_at = now ∧ r.updated_at = now ∧
      r.created_at = r.updated_at ∧ r.toMistakeBase = m ∧
      dictLookup s2 m.id = some r := by
  have h2 : create_mistake store m now =
      .ok (dictInsert store m.id
            { toMistakeBase := m, created_at := now, updated_at := now }, 201,
           { toMistakeBase := m, created_at := now, updated_at := now }) := by
    simp [create_mistake, h]
  exact ⟨_, _, h2, rfl, rfl, rfl, rfl, dictLookup_dictInsert_self _ _ _⟩

theorem c4_create_mistake_fresh_witness :
    dictContains ([] : MistakeStore) sampleBase.id = false ∧
    ∃ s2 r, create_mistake [] sampleBase 3 = .ok (s2, 201, r) ∧
      r.created_at = 3 ∧ r.updated_at = 3 ∧ r.created_at = r.updated_at ∧
      r.toMistakeBase = sampleBase ∧ dictLookup s2 sampleBase.id = some r :=
  ⟨rfl, c4_create_mistake_fresh [] sampleBase 3 rfl⟩

/-- C5: `get`, `update` and `delete` on the Mistake store fail with
`HTTPException(404, "Mistake not found")` exactly when the id is absent;
deleting a present id removes the record, so a subsequent `get` returns the
404 error; deleting an absent id raises before touching the store, so no
updated store is produced and its size is unchanged. -/
theorem c5_mistake_notfound_semantics (store : MistakeStore) (id : UUIDT)
    (u : MistakeUpdate) :
    (get_mistakes store id = .error (.http 404 "Mistake not found") ↔
       dictLookup store id = none) ∧
    (update_mistake store id u = .error (.http 404 "Mistake not found") ↔
       dictLookup store id = none) ∧
    (delete_mistake store id = .error (.http 404 "Mistake not found") ↔
       dictLookup store id = none) ∧
    (∀ r, dictLookup store id = some r →
       ∃ s2, delete_mistake store id = .ok s2 ∧
         get_mistakes s2 id = .error (.http 404 "Mistake not found")) := by
  refine ⟨?_, ?_, ?_, ?_⟩
  · cases h : dictLookup store id <;> simp [get_mistakes, h]
  · cases h : dictLookup store id <;> simp [update_mistake, h]
  · cases h : dictLookup store id <;> simp [delete_mistake, dictContains, h]
  · intro r hr
    refine ⟨dictErase store id, ?_, ?_⟩
    · simp [delete_mistake, dictContains, hr]
    · simp [get_mistakes, dictLookup_dictErase_self]

theorem c5_mistake_notfound_semantics_witness :
    dictLookup sampleMStore 1 = some sampleRec ∧
    (∃ s2, delete_mistake sampleMStore 1 = .ok s2 ∧
       get_mistakes s2 1 = .error (.http 404 "Mistake not found")) ∧
    delete_mistake [] 1 = .error (.http 404 "Mistake not found") :=
  ⟨rfl,
   (c5_mistake_notfound_semantics sampleMStore 1 {}).2.2.2 sampleRec rfl,
   ((c5_mistake_notfound_semantics [] 1 {}).2.2.1).mpr rfl⟩

/-- Spec-side predicate for C6: a record matches a filter configuration when
every supplied filter value equals the corresponding field exactly. -/
def optMatch (q : Option String) (x : String) : Bool :=
  match q with
  | none => true
  | some v => x == v

/-- Spec-side conjunction of the six recognized Mistake filters. -/
def specMatchesFilters (f : MistakeFilters) (a : MistakeRead) : Bool :=
  optMatch f.subject a.subject && optMatch f.key_concept a.key_concept &&
  optMatch f.prompt a.prompt && optMatch f.correct_answer a.correct_answer &&
  optMatch f.wrong_answer a.wrong_answer && optMatch f.reflection a.reflection

theorem mem_applyFilter {α : Type} (l : List α) (q : Option String)
    (field : α → String) (a : α) :
    a ∈ applyFilter l q field ↔ a ∈ l ∧ optMatch q (field a) = true := by
  cases q <;> simp [applyFilter, optMatch, List.mem_filter]

/-- C6: `list_mistakes` with no filters returns exactly the stored records
(here even in store order, which implies set equality); a lone `subject`
filter returns exactly the records whose `subject` equals it by `==` (exact,
case-sensitive); and in general a record is in the result iff it is stored and
satisfies every supplied filter conjunctively, absent filters imposing no
constraint. -/
theorem c6_list_mistakes_filters (store : MistakeStore) (s : String)
    (f : MistakeFilters) (r : MistakeRead) :
    list_mistakes store {} = dictValues store ∧
    list_mistakes store { subject := some s } =
      (dictValues store).filter (fun a => a.subject == s) ∧
    (r ∈ list_mistakes store f ↔
       r ∈ dictValues store ∧ specMatchesFilters f r = true) := by
  refine ⟨rfl, rfl, ?_⟩
  simp only [list_mistakes, mem_applyFilter, specMatchesFilters,
    Bool.and_eq_true, and_assoc]

/-! ## Claims about the Person store and the health reporter -/

def samplePerson : PersonRead :=
  { first_name := "Ada", last_name := "Smith", email := "ada@example.com",
    birth_date := none, grade_level := some "9-12",
    mistake := [{ sampleBase with subject := "lsat" }],
    id := 7, created_at := 0, updated_at := 0 }

def samplePStore : PersonStore := [(7, samplePerson)]

def samplePayloadRaw : PersonPayloadRaw :=
  { first_name := "Ada", last_name := "Smith", email := "ada@example.com" }

def samplePC : PersonCreate :=
  { first_name := "Ada", last_name := "Smith", email := "ada@example.com" }

/-- C2: the claim says a Person list query with `grade_level` or `subject`
includes exactly the Persons with at least one matching embedded entry.  The
code instead raises `AttributeError` (HTTP 500) whenever such a filter is
supplied and any candidate Person exists: `list_persons` reads `p.mistakes`
(main.py lines 140 and 142) but the model's field is `mistake`
(person.py line 40) — and the embedded `MistakeBase` entries have no
`grade_level` field at all.  Evaluation at the failing input: a store with one
Person whose single embedded entry has `subject = "lsat"`, queried with
`subject = "lsat"` (and likewise `grade_level = "9-12"`). -/
theorem c2_list_persons_embedded_filter_crashes :
    list_persons samplePStore { subject := some "lsat" } =
      .error (.http 500
        "AttributeError: PersonRead object has no attribute mistakes") ∧
    list_persons samplePStore { grade_level := some "9-12" } =
      .error (.http 500
        "AttributeError: PersonRead object has no attribute mistakes") :=
  ⟨rfl, rfl⟩

/-- C7: the Person identifier is server-generated — the create payload has no
id field (a caller-supplied one is dropped by parsing), and the stored record
carries the freshly generated id; when the embedded collection field is
omitted from the payload it parses to the empty sequence, so the stored
Person's embedded collection is empty. -/
theorem c7_create_person_id_and_default (store : PersonStore)
    (raw : PersonPayloadRaw) (pc : PersonCreate) (freshId : UUIDT)
    (now : Timestamp) (hparse : parsePersonCreate raw = .ok pc)
    (hom : raw.mistake = none) :
    (create_person store pc freshId now).2.2.id = freshId ∧
    (create_person store pc freshId now).2.2.mistake = [] ∧
    dictLookup (create_person store pc freshId now).1 freshId =
      some (create_person store pc freshId now).2.2 := by
  have hpc : pc.mistake = raw.mistake.getD [] := by
    unfold parsePersonCreate at hparse
    by_cases hv : validGradeLevel raw.grade_level = true
    · rw [if_pos hv] at hparse
      injection hparse with hparse
      rw [← hparse]
    · rw [if_neg hv] at hparse
      cases hparse
  refine ⟨rfl, ?_, dictLookup_dictInsert_self _ _ _⟩
  show pc.mistake = []
  rw [hpc, hom]
  rfl

theorem c7_create_person_id_and_default_witness :
    parsePersonCreate samplePayloadRaw = .ok samplePC ∧
    samplePayloadRaw.mistake = none ∧
    ((create_person [] samplePC 5 9).2.2.id = 5 ∧
     (create_person [] samplePC 5 9).2.2.mistake = [] ∧
     dictLookup (create_person [] samplePC 5 9).1 5 =
       some (create_person [] samplePC 5 9).2.2) :=
  ⟨rfl, rfl,
   c7_create_person_id_and_default [] samplePayloadRaw samplePC 5 9 rfl rfl⟩

/-- The Person-store invariant of C8: every stored record's `grade_level`, if
present, is one of the `GradeLevel` literals. -/
def personStoreInv (s : PersonStore) : Prop :=
  ∀ kv ∈ s, validGradeLevel kv.2.grade_level = true

theorem personStoreInv_dictInsert {s : PersonStore} {k : UUIDT}
    {v : PersonRead} (hs : personStoreInv s)
    (hv : validGradeLevel v.grade_level = true) :
    personStoreInv (dictInsert s k v) := by
  intro kv hkv
  rcases mem_dictInsert hkv with h | h
  · exact hs kv h
  · rw [h]
    exact hv

theorem update_person_of_lookup_none {store : PersonStore} {pid : UUIDT}
    {u : PersonUpdate} (hl : dictLookup store pid = none) :
    update_person store pid u = .error (.http 404 "Person not found") := by
  unfold update_person
  rw [hl]

theorem update_person_of_lookup_some {store : PersonStore} {pid : UUIDT}
    {u : PersonUpdate} {stored : PersonRead}
    (hl : dictLookup store pid = some stored) :
    update_person store pid u =
      match mkPersonRead (applyPersonUpdate stored u) with
      | .error e => .error e
      | .ok pr => .ok (dictInsert store pid pr, pr) := by
  unfold update_person
  rw [hl]

/-- C8: the grade-level invariant holds on every reachable Person store state:
`create` only runs on payloads that passed `PersonCreate` validation (which
enforces the literal set), `update` re-validates the merged record as a
`PersonRead` before storing it, and `delete` only removes records.  Inputs
with an out-of-set value are rejected as `ValidationError`: at parse time for
create, and at `PersonRead(**stored)` re-validation for update (which leaves
the store untouched). -/
theorem c8_grade_level_invariant (s : PersonStore) (pc : PersonCreate)
    (fid : UUIDT) (now : Timestamp) (u : PersonUpdate) (pid : UUIDT)
    (raw : PersonPayloadRaw) (g : String) :
    (personStoreInv s → validGradeLevel pc.grade_level = true →
       personStoreInv (create_person s pc fid now).1) ∧
    (personStoreInv s → ∀ s2 pr, update_person s pid u = .ok (s2, pr) →
       personStoreInv s2) ∧
    (personStoreInv s → ∀ s2, delete_person s pid = .ok s2 →
       personStoreInv s2) ∧
    (raw.grade_level = some g → gradeLevels.contains g = false →
       parsePersonCreate raw =
         .error (.validation
           "grade_level must be one of the GradeLevel literals")) ∧
    (u.grade_level = some g → gradeLevels.contains g = false →
       dictContains s pid = true →
       update_person s pid u =
         .error (.validation
           "grade_level must be one of the GradeLevel literals")) := by
  refine ⟨?_, ?_, ?_, ?_, ?_⟩
  · intro hs hv
    exact personStoreInv_dictInsert hs hv
  · intro hs s2 pr h
    cases hl : dictLookup s pid with
    | none =>
        rw [update_person_of_lookup_none hl] at h
        cases h
    | some stored =>
        rw [update_person_of_lookup_some hl] at h
        cases hm : mkPersonRead (applyPersonUpdate stored u) with
        | error e =>
            rw [hm] at h
            have h2 : (Except.error e :
                Except ApiError (PersonStore × PersonRead)) = .ok (s2, pr) := h
            cases h2
        | ok pr0 =>
            rw [hm] at h
            have h2 : (Except.ok (dictInsert s pid pr0, pr0) :
                Except ApiError (PersonStore × PersonRead)) = .ok (s2, pr) := h
            have hval : validGradeLevel pr0.grade_level = true := by
              unfold mkPersonRead at hm
              by_cases hv : validGradeLevel
                  (applyPersonUpdate stored u).grade_level = true
              · rw [if_pos hv] at hm
                injection hm with hm
                rw [← hm]
                exact hv
              · rw [if_neg hv] at hm
                cases hm
            injection h2 with h2
            injection h2 with h21 h22
            rw [← h21]
            exact personStoreInv_dictInsert hs hval
  · intro hs s2 h
    unfold delete_person at h
    by_cases hc : dictContains s pid = true
    · rw [if_pos hc] at h
      injection h with h
      rw [← h]
      intro kv hkv
      exact hs kv (List.mem_filter.mp hkv).1
    · rw [if_neg hc] at h
      cases h
  · intro hg hbad
    unfold parsePersonCreate
    have hv : validGradeLevel raw.grade_level = false := by
      rw [hg]
      simpa [validGradeLevel] using hbad
    rw [hv]
    rfl
  · intro hg hbad hc
    obtain ⟨stored, hl⟩ : ∃ v, dictLookup s pid = some v := by
      cases hls : dictLookup s pid with
      | none => simp [dictContains, hls] at hc
      | some w => exact ⟨w, rfl⟩
    have hmg : (applyPersonUpdate stored u).grade_level = some g := by
      simp [applyPersonUpdate, hg]
    have hmk : mkPersonRead (applyPersonUpdate stored u) =
        .error (.validation
          "grade_level must be one of the GradeLevel literals") := by
      unfold mkPersonRead
      rw [hmg]
      have hv : validGradeLevel (some g) = false := by
        simpa [validGradeLevel] using hbad
      rw [hv]
      rfl
    rw [update_person_of_lookup_some hl, hmk]

theorem samplePStore_inv : personStoreInv samplePStore := by
  intro kv hkv
  simp only [samplePStore, List.mem_singleton] at hkv
  rw [hkv]
  rfl

theorem c8_grade_level_invariant_witness :
    personStoreInv (create_person [] samplePC 1 0).1 ∧
    parsePersonCreate
        { samplePayloadRaw with grade_level := some "undergraduate" } =
      .error (.validation
        "grade_level must be one of the GradeLevel literals") ∧
    update_person samplePStore 7 { grade_level := some "undergraduate" } =
      .error (.validation
        "grade_level must be one of the GradeLevel literals") ∧
    personStoreInv (dictErase samplePStore 7) ∧
    personStoreInv (dictInsert samplePStore 7
      (applyPersonUpdate samplePerson { first_name := some "Beth" })) :=
  ⟨(c8_grade_level_invariant [] samplePC 1 0 {} 0 samplePayloadRaw "x").1
      (fun kv hkv => absurd hkv (List.not_mem_nil kv)) rfl,
   (c8_grade_level_invariant [] samplePC 1 0 {} 0
      { samplePayloadRaw with grade_level := some "undergraduate" }
      "undergraduate").2.2.2.1 rfl rfl,
   (c8_grade_level_invariant samplePStore samplePC 1 0
      { grade_level := some "undergraduate" } 7 samplePayloadRaw
      "undergraduate").2.2.2.2 rfl rfl rfl,
   (c8_grade_level_invariant samplePStore samplePC 1 0 {} 7 samplePayloadRaw
      "x").2.2.1 samplePStore_inv (dictErase samplePStore 7) rfl,
   (c8_grade_level_invariant samplePStore samplePC 1 0
      { first_name := some "Beth" } 7 samplePayloadRaw "x").2.1
      samplePStore_inv
      (dictInsert samplePStore 7
        (applyPersonUpdate samplePerson { first_name := some "Beth" }))
      (applyPersonUpdate samplePerson { first_name := some "Beth" }) rfl⟩

/-- C9: the health report is built unconditionally from the current instant
(rendered ISO-8601 by `isoformat()` with a `"Z"` appended) and the two
optional echo inputs, which are passed through unchanged (`none` when not
supplied); there is no failure path in the constructor itself. -/
theorem c9_make_health_passthrough (nowIso ip : String)
    (e pe : Option String) :
    (make_health nowIso ip e pe).echo = e ∧
    (make_health nowIso ip e pe).path_echo = pe ∧
    (make_health nowIso ip e pe).timestamp = nowIso ++ "Z" ∧
    (make_health nowIso ip e pe).status = 200 ∧
    (make_health nowIso ip e pe).status_message = "OK" ∧
    (make_health nowIso ip e none).path_echo = none :=
  ⟨rfl, rfl, rfl, rfl, rfl, rfl⟩

/-- C10: `create_person` performs no duplicate check: it is a total function
(no error outcome exists in its type), always reports status 201, and stores
the new record at the generated id; when that id was already bound the old
record is replaced in place, so the store size does not grow. -/
theorem c10_create_person_no_conflict (s : PersonStore) (pc : PersonCreate)
    (fid : UUIDT) (now : Timestamp) :
    (create_person s pc fid now).2.1 = 201 ∧
    dictLookup (create_person s pc fid now).1 fid =
      some (create_person s pc fid now).2.2 ∧
    (dictContains s fid = true →
       ((create_person s pc fid now).1).length = s.length) := by
  refine ⟨rfl, dictLookup_dictInsert_self _ _ _, ?_⟩
  intro h
  show (dictInsert s fid _).length = s.length
  unfold dictInsert
  rw [if_pos h, List.length_map]

theorem c10_create_person_no_conflict_witness :
    dictContains samplePStore 7 = true ∧
    ((create_person samplePStore samplePC 7 3).2.1 = 201 ∧
     dictLookup (create_person samplePStore samplePC 7 3).1 7 =
       some (create_person samplePStore samplePC 7 3).2.2 ∧
     ((create_person samplePStore samplePC 7 3).1).length =
       samplePStore.length) :=
  ⟨rfl,
   (c10_create_person_no_conflict samplePStore samplePC 7 3).1,
   (c10_create_person_no_conflict samplePStore samplePC 7 3).2.1,
   (c10_create_person_no_conflict samplePStore samplePC 7 3).2.2 rfl⟩

end SimpleMicroservice
